import Mathlib

/-!
Verification development for the column/article segmentation engine.

The definitions below are a shallow embedding of `scripts/segment_articles.py`
(the Article Grouper, Headline Classifier and their helpers) and of the pure
numeric core of `scripts/preprocess.py` (the Column Detector's peak finding and
boundary selection).  Python floats are modelled as exact rationals (ℚ), Python
lists as Lean lists, and Python dicts for text blocks/articles as structures.
Python's stable `sorted` is modelled by a stable insertion sort: any two stable
sorts with the same comparator agree, so this is observationally faithful.
-/

/-- Python list slice `l[a:b]` for nonnegative indices (clamping included). -/
def pySlice {α : Type} (l : List α) (a b : ℕ) : List α :=
  (l.take b).drop a

/-- Insert `a` into `l` before the first element `b` with `¬ le a b`;
this is the inner step of a stable insertion sort. -/
def insertLe {α : Type} (le : α → α → Bool) (a : α) : List α → List α
  | [] => [a]
  | b :: l => if le a b then a :: b :: l else b :: insertLe le a l

/-- Stable sort with comparator `le` (insertion sort).  Models Python's
stable `sorted(xs, key=...)`: when `le` is the reflexive lexicographic
key comparison, earlier elements with equal keys stay earlier. -/
def pySorted {α : Type} (le : α → α → Bool) : List α → List α
  | [] => []
  | a :: l => insertLe le a (pySorted le l)

/-- Bounding box of a text block: `block["bbox"]` with keys x, y, width, height
(page-pixel coordinates, floats modelled as ℚ). -/
structure BBox where
  x : ℚ
  y : ℚ
  width : ℚ
  height : ℚ
deriving Repr, DecidableEq

/-- A text block (OCR fragment): the dict consumed by `segment_articles.py`.
`column` is the optional `"column"` key: absent (`none`) until
`group_into_articles` assigns it on lines 107-108 of the source. -/
structure Block where
  text : String
  bbox : BBox
  column : Option ℕ
deriving Repr, DecidableEq

/-- A degenerate block used only as the default for safe list indexing. -/
def dummyBlock : Block :=
  { text := "", bbox := { x := 0, y := 0, width := 0, height := 0 }, column := none }

/-- `detect_columns(text_blocks, page_width, num_columns_hint=3)`:
returns `num_columns_hint` equal-width bands.  The x-centre collection and
sort is present in the source but its result is never used afterwards;
it is kept here to mirror the source faithfully.  The Python default
`num_columns_hint=3` is supplied explicitly at the call sites below. -/
def detect_columns (text_blocks : List Block) (page_width : ℚ)
    (num_columns_hint : ℕ) : List (ℚ × ℚ) :=
  if text_blocks = [] then []
  else
    let x_positions :=
      pySorted (fun a b => decide (a ≤ b))
        (text_blocks.map (fun block => block.bbox.x + block.bbox.width / 2))
    let column_width := page_width / (num_columns_hint : ℚ)
    let _ := x_positions
    (List.range num_columns_hint).map
      (fun i => ((i : ℚ) * column_width, ((i : ℚ) + 1) * column_width))

/-- `assign_to_column(block, columns)`: first column band containing the
block's x-centre, defaulting to the last column when none matches. -/
def assign_to_column (block : Block) (columns : List (ℚ × ℚ)) : ℕ :=
  let x_center := block.bbox.x + block.bbox.width / 2
  match columns.findIdx? (fun c => decide (c.1 ≤ x_center) && decide (x_center < c.2)) with
  | some idx => idx
  | none => columns.length - 1

/-- Python `str.isupper()` restricted to the ASCII-cased characters the
repository's data uses: some cased character exists and no cased character
is lower-case. -/
def pyIsUpper (s : String) : Bool :=
  s.data.all (fun c => !c.isLower) && s.data.any (fun c => c.isUpper)

/-- Scanner for Python `str.istitle()`: upper-case characters may only follow
an uncased character, lower-case characters only a cased one.  The Bool
argument records whether the previous character was cased. -/
def titleOk : List Char → Bool → Bool
  | [], _ => true
  | c :: cs, prevCased =>
    if c.isUpper then (!prevCased) && titleOk cs true
    else if c.isLower then prevCased && titleOk cs true
    else titleOk cs false

/-- Python `str.istitle()`: the scan succeeds and at least one cased
character occurs. -/
def pyIsTitle (s : String) : Bool :=
  titleOk s.data false && s.data.any (fun c => c.isUpper || c.isLower)

/-- Python `str.lower()` (ASCII). -/
def pyLower (s : String) : String :=
  String.mk (s.data.map Char.toLower)

/-- Python substring test `need in hay` on character lists. -/
def listContainsSub (hay need : List Char) : Bool :=
  (List.range (hay.length + 1)).any (fun i => need.isPrefixOf (hay.drop i))

/-- The keyword list of `is_likely_headline` (source line 87). -/
def headline_words : List String :=
  ["murder", "arrested", "found", "death", "trial", "police"]

/-- `is_likely_headline(block, surrounding_blocks)` (source lines 59-91):
additive score of four boolean signals, headline iff the score reaches 2.
The float constant `1.3` is the exact rational `13/10`. -/
def is_likely_headline (block : Block) (surrounding_blocks : List Block) : Bool :=
  let text := block.text
  let height := block.bbox.height
  let avg_height : ℚ :=
    if surrounding_blocks ≠ [] then
      ((surrounding_blocks.map (fun b => b.bbox.height)).sum) / (surrounding_blocks.length : ℚ)
    else height
  let is_tall : Bool := decide (height > avg_height * (13 / 10))
  let is_short : Bool := decide (text.length < 100)
  let is_title_case : Bool := pyIsTitle text || pyIsUpper text
  let has_headline_words : Bool :=
    headline_words.any (fun w => listContainsSub (pyLower text).data w.data)
  let score : ℕ :=
    (if is_tall then 1 else 0) + (if is_short then 1 else 0) +
      (if is_title_case then 1 else 0) + (if has_headline_words then 1 else 0)
  decide (score ≥ 2)

/-- An article while the grouper is building it (source lines 151-158),
with its member `blocks` still present. -/
structure Article where
  article_id : String
  headline : String
  blocks : List Block
  column : Option ℕ
  start_y : ℚ
  end_y : ℚ
deriving Repr, DecidableEq

/-- A degenerate article used only as the default for safe list indexing. -/
def dummyArticle : Article :=
  { article_id := "", headline := "", blocks := [], column := none,
    start_y := 0, end_y := 0 }

/-- The fresh article opened for `blk` (source lines 151-158). -/
def newArticle (aid : ℕ) (blk : Block) (is_headline : Bool) : Article :=
  { article_id := "article_" ++ toString aid,
    headline := if is_headline then blk.text else "",
    blocks := [blk],
    column := blk.column,
    start_y := blk.bbox.y,
    end_y := blk.bbox.y + blk.bbox.height }

/-- The `start_new` decision for an incoming block against the previous block
while an article is open (source lines 128-141): a large vertical gap
(`gap > avg_height * 2`) or a column change. -/
def start_new (block prev_block : Block) : Bool :=
  let gap := block.bbox.y - (prev_block.bbox.y + prev_block.bbox.height)
  let avg_height := (block.bbox.height + prev_block.bbox.height) / 2
  decide (gap > avg_height * 2) || decide (block.column ≠ prev_block.column)

/-- The neighborhood `sorted_blocks[max(0, i-2) : min(len, i+3)]` used to
classify a headline at a break (source line 148). -/
def headlineWindow (sorted_blocks : List Block) (i : ℕ) : List Block :=
  pySlice sorted_blocks (i - 2) (i + 3)

/-- The grouping loop of `group_into_articles` (source lines 118-171) from its
second iteration on: `rest` is the remaining stream, `i` the index of its head
in `sorted_blocks`, `prev` the previously processed block
(`sorted_blocks[i-1]`), `cur` the open article, `aid` the next article id. -/
def groupGo (sorted_blocks : List Block) :
    List Block → ℕ → Block → Article → ℕ → List Article
  | [], _, _, cur, _ => [cur]
  | blk :: rest, i, prev, cur, aid =>
    if start_new blk prev then
      let surrounding := headlineWindow sorted_blocks i
      let is_headline := is_likely_headline blk surrounding
      cur :: groupGo sorted_blocks rest (i + 1) blk (newArticle aid blk is_headline) (aid + 1)
    else
      let appended := cur.blocks ++ [blk]
      let backfill := cur.headline = "" && is_likely_headline blk appended
      let cur2 :=
        { cur with
            blocks := appended,
            end_y := blk.bbox.y + blk.bbox.height,
            headline := if backfill then blk.text else cur.headline }
      groupGo sorted_blocks rest (i + 1) blk cur2 aid

/-- The grouping loop of `group_into_articles` run on an already sorted
stream: the first block always opens `article_1`, and the loop then
processes the remainder. -/
def grouped_articles_sorted (sorted_blocks : List Block) : List Article :=
  match sorted_blocks with
  | [] => []
  | b :: rest =>
    let is_headline := is_likely_headline b (headlineWindow sorted_blocks 0)
    groupGo sorted_blocks rest 1 b (newArticle 1 b is_headline) 2

/-- The state of the input block list after the column-assignment loop of
`group_into_articles` (source lines 104-108): every block's `"column"` key is
overwritten in place with `assign_to_column` against `detect_columns` with the
default hint 3.  This is also the post-call state of the caller's list, since
the source mutates the block dicts it was given. -/
def columnsAssigned (text_blocks : List Block) (page_width : ℚ) : List Block :=
  let columns := detect_columns text_blocks page_width 3
  text_blocks.map (fun b => { b with column := some (assign_to_column b columns) })

/-- The sort key comparison of source line 111: lexicographic on
`(column, bbox.y)`; reflexive so that the stable sort keeps input order
on ties, exactly as Python's `sorted` does. -/
def blockLe (a b : Block) : Bool :=
  decide (a.column.getD 0 < b.column.getD 0) ||
    (decide (a.column.getD 0 = b.column.getD 0) && decide (a.bbox.y ≤ b.bbox.y))

/-- `sorted_blocks` of source line 111: the column-assigned input sorted by
`(column, bbox.y)`. -/
def sortedAssigned (text_blocks : List Block) (page_width : ℚ) : List Block :=
  pySorted blockLe (columnsAssigned text_blocks page_width)

/-- `group_into_articles` up to (but not including) the post-processing of
source lines 173-196: the list of grouped articles with their member blocks
still attached. -/
def grouped_articles (text_blocks : List Block) (page_width : ℚ) : List Article :=
  grouped_articles_sorted (sortedAssigned text_blocks page_width)

/-- Python `str.split()` with no argument: split on whitespace runs,
discarding empty pieces. -/
def pySplitWhitespace (s : String) : List String :=
  (s.split Char.isWhitespace).filter (fun p => p ≠ "")

/-- Minimum of a rational list; the source only applies `min` to the nonempty
coordinate lists of an article's blocks, so the default is never relevant. -/
def listMinQ (l : List ℚ) : ℚ := l.foldl min (l.headD 0)

/-- Maximum of a rational list (same remark as `listMinQ`). -/
def listMaxQ (l : List ℚ) : ℚ := l.foldl max (l.headD 0)

/-- A finalized article record after the post-processing of source lines
173-196: `full_text`, union bbox, `word_count`, `num_blocks`; the member
block list itself is deleted (`del article["blocks"]`). -/
structure ArticleOut where
  article_id : String
  headline : String
  column : Option ℕ
  start_y : ℚ
  end_y : ℚ
  full_text : String
  bbox : BBox
  word_count : ℕ
  num_blocks : ℕ
deriving Repr, DecidableEq

/-- The post-processing of one article (source lines 174-196). -/
def postProcess (article : Article) : ArticleOut :=
  let full_text := String.intercalate " " (article.blocks.map (fun b => b.text))
  let all_x := article.blocks.map (fun b => b.bbox.x)
  let all_y := article.blocks.map (fun b => b.bbox.y)
  let all_x_end := article.blocks.map (fun b => b.bbox.x + b.bbox.width)
  let all_y_end := article.blocks.map (fun b => b.bbox.y + b.bbox.height)
  { article_id := article.article_id,
    headline := article.headline,
    column := article.column,
    start_y := article.start_y,
    end_y := article.end_y,
    full_text := full_text,
    bbox :=
      { x := listMinQ all_x,
        y := listMinQ all_y,
        width := listMaxQ all_x_end - listMinQ all_x,
        height := listMaxQ all_y_end - listMinQ all_y },
    word_count := (pySplitWhitespace full_text).length,
    num_blocks := article.blocks.length }

/-- `group_into_articles(text_blocks, page_width, page_height)` end to end
(source lines 93-198).  `page_height` is accepted and unused, as in the
source. -/
def group_into_articles (text_blocks : List Block) (page_width page_height : ℚ) :
    List ArticleOut :=
  let _ := page_height
  if text_blocks = [] then []
  else (grouped_articles text_blocks page_width).map postProcess

/-- Full discrete convolution `np.convolve(a, v)` (mode "full"):
entry `n` is the sum over `k ≤ n` of `a[k] * v[n-k]`, out-of-range
indices contributing 0. -/
def convolveFull (a v : List ℚ) : List ℚ :=
  (List.range (a.length + v.length - 1)).map
    (fun n => ((List.range (n + 1)).map (fun k => a.getD k 0 * v.getD (n - k) 0)).sum)

/-- `np.convolve(a, v, mode="same")`: the centred `a.length` entries of the
full convolution. -/
def convolveSame (a v : List ℚ) : List ℚ :=
  ((convolveFull a v).drop ((v.length - 1) / 2)).take a.length

/-- `np.convolve(a, v, mode="same")` with numpy's empty-input errors:
numpy raises `ValueError` when the first array is empty ("a cannot be
empty") or the second is ("v cannot be empty"), checking `a` first.  (numpy
swaps the arguments when `v` is longer than `a`; at the call sites below the
kernel is never longer than the projection, so no swap occurs.) -/
def convolveSameE (a v : List ℚ) : Except String (List ℚ) :=
  if a = [] then Except.error "ValueError: a cannot be empty"
  else if v = [] then Except.error "ValueError: v cannot be empty"
  else Except.ok (convolveSame a v)

/-- `smooth_projection(projection, window_size)` of `preprocess.py`
(lines 56-62): moving average by convolution with a constant kernel
`np.ones(window_size) / window_size`.  A zero `window_size` makes the kernel
empty — `np.ones(0)/0` is silently the empty array — and the convolution
then raises `ValueError`, which the `Except` result records. -/
def smooth_projection (projection : List ℚ) (window_size : ℕ) :
    Except String (List ℚ) :=
  let kernel := List.replicate window_size ((1 : ℚ) / (window_size : ℚ))
  convolveSameE projection kernel

/-- `find_peaks(projection, expected_columns, min_peak_height)` of
`preprocess.py` (lines 65-105): `none` models the Python `return None`
(flat profile, or too few peaks).  The float default `0.2` is the exact
rational `1/5`; defaults are supplied explicitly at call sites. -/
def find_peaks (projection : List ℚ) (expected_columns : ℕ)
    (min_peak_height : ℚ) : Option (List ℕ) :=
  if decide (listMaxQ projection > listMinQ projection) then
    let mn := listMinQ projection
    let mx := listMaxQ projection
    let normalized := projection.map (fun x => (x - mn) / (mx - mn))
    let peaks := (List.range' 1 (projection.length - 2)).filter
      (fun i =>
        decide (normalized.getD i 0 > normalized.getD (i - 1) 0) &&
          decide (normalized.getD i 0 > normalized.getD (i + 1) 0) &&
          decide (normalized.getD i 0 > min_peak_height))
    let expected_dividers := expected_columns - 1
    if peaks.length ≥ expected_dividers - 1 then
      let peak_heights :=
        pySorted (fun p q => decide (normalized.getD q 0 ≤ normalized.getD p 0)) peaks
      let top_peaks := pySorted (fun p q => decide (p ≤ q)) (peak_heights.take expected_dividers)
      some top_peaks
    else none
  else none

/-- The even-division fallback of `detect_column_boundaries`
(`preprocess.py` line 218): `int(width * i / expected_columns)` for
`i = 0 .. expected_columns`. -/
def evenBoundaries (width expected_columns : ℕ) : List ℕ :=
  (List.range (expected_columns + 1)).map (fun i => width * i / expected_columns)

/-- The boundary-selection tail of `detect_column_boundaries`
(`preprocess.py` lines 209-218), taking the smoothed-and-projected profile
as input: the image-processing prefix (OpenCV binarization and vertical
morphology followed by `np.sum(..., axis=0)`) is external-library code; on a
page with no ink it produces the all-zero projection used in the theorems
below.  Peaks are accepted only when the peak list is nonempty (Python list
truthiness) and long enough; otherwise the even division is returned.  The
smoothing window is `int(width/100)`, which is zero for any width under 100:
there the smoothing step raises `ValueError` (empty kernel) and the error
propagates out of the function. -/
def detect_column_boundaries (projection : List ℚ) (width : ℕ)
    (expected_columns : ℕ) : Except String (List ℕ) := do
  let smoothed ← smooth_projection projection (width / 100)
  match find_peaks smoothed expected_columns (1 / 5) with
  | some peaks =>
    if peaks ≠ [] ∧ peaks.length ≥ expected_columns - 2 then
      pure (pySorted (fun p q => decide (p ≤ q)) ((0 :: (peaks ++ [width])).eraseDups))
    else pure (evenBoundaries width expected_columns)
  | none => pure (evenBoundaries width expected_columns)

/-- Checked rational division: Python raises `ZeroDivisionError` on a zero
denominator; every division of the segmentation core is routed through this
in the instrumented variant below. -/
def qdiv (a b : ℚ) : Except String ℚ :=
  if b = 0 then Except.error "ZeroDivisionError" else Except.ok (a / b)

theorem ebind_ok {α β : Type} (a : α) (f : α → Except String β) :
    (Except.ok a >>= f : Except String β) = f a := rfl

theorem epure_ok {α : Type} (a : α) : (pure a : Except String α) = Except.ok a := rfl

/-- Division-checked `detect_columns`. -/
def detect_columnsE (text_blocks : List Block) (page_width : ℚ)
    (num_columns_hint : ℕ) : Except String (List (ℚ × ℚ)) := do
  if text_blocks = [] then return []
  else
    let column_width ← qdiv page_width (num_columns_hint : ℚ)
    return (List.range num_columns_hint).map
      (fun i => ((i : ℚ) * column_width, ((i : ℚ) + 1) * column_width))

/-- Division-checked `assign_to_column`. -/
def assign_to_columnE (block : Block) (columns : List (ℚ × ℚ)) :
    Except String ℕ := do
  let half ← qdiv block.bbox.width 2
  let x_center := block.bbox.x + half
  match columns.findIdx? (fun c => decide (c.1 ≤ x_center) && decide (x_center < c.2)) with
  | some idx => return idx
  | none => return columns.length - 1

/-- Division-checked `is_likely_headline`: the local-average division is
performed exactly when the source performs it (nonempty neighborhood). -/
def is_likely_headlineE (block : Block) (surrounding_blocks : List Block) :
    Except String Bool := do
  let text := block.text
  let height := block.bbox.height
  let avg_height ←
    if surrounding_blocks ≠ [] then
      qdiv ((surrounding_blocks.map (fun b => b.bbox.height)).sum)
        (surrounding_blocks.length : ℚ)
    else pure height
  let is_tall : Bool := decide (height > avg_height * (13 / 10))
  let is_short : Bool := decide (text.length < 100)
  let is_title_case : Bool := pyIsTitle text || pyIsUpper text
  let has_headline_words : Bool :=
    headline_words.any (fun w => listContainsSub (pyLower text).data w.data)
  let score : ℕ :=
    (if is_tall then 1 else 0) + (if is_short then 1 else 0) +
      (if is_title_case then 1 else 0) + (if has_headline_words then 1 else 0)
  return decide (score ≥ 2)

/-- Division-checked `start_new` test (the gap/average computation of
source lines 132-136). -/
def start_newE (block prev_block : Block) : Except String Bool := do
  let gap := block.bbox.y - (prev_block.bbox.y + prev_block.bbox.height)
  let avg_height ← qdiv (block.bbox.height + prev_block.bbox.height) 2
  return decide (gap > avg_height * 2) || decide (block.column ≠ prev_block.column)

/-- Division-checked grouping loop. -/
def groupGoE (sorted_blocks : List Block) :
    List Block → ℕ → Block → Article → ℕ → Except String (List Article)
  | [], _, _, cur, _ => pure [cur]
  | blk :: rest, i, prev, cur, aid => do
    let snew ← start_newE blk prev
    if snew then
      let surrounding := headlineWindow sorted_blocks i
      let is_headline ← is_likely_headlineE blk surrounding
      let tail ← groupGoE sorted_blocks rest (i + 1) blk (newArticle aid blk is_headline) (aid + 1)
      return cur :: tail
    else
      let appended := cur.blocks ++ [blk]
      let hback ← is_likely_headlineE blk appended
      let backfill := cur.headline = "" && hback
      let cur2 :=
        { cur with
            blocks := appended,
            end_y := blk.bbox.y + blk.bbox.height,
            headline := if backfill then blk.text else cur.headline }
      groupGoE sorted_blocks rest (i + 1) blk cur2 aid

/-- Division-checked column-assignment loop (source lines 107-108). -/
def assignAllE (columns : List (ℚ × ℚ)) : List Block → Except String (List Block)
  | [] => pure []
  | b :: l => do
    let idx ← assign_to_columnE b columns
    let rest ← assignAllE columns l
    pure ({ b with column := some idx } :: rest)

/-- Division-checked `group_into_articles` up to post-processing
(post-processing performs no division). -/
def grouped_articlesE (text_blocks : List Block) (page_width : ℚ) :
    Except String (List Article) := do
  let columns ← detect_columnsE text_blocks page_width 3
  let assigned ← assignAllE columns text_blocks
  let sorted_blocks := pySorted blockLe assigned
  match sorted_blocks with
  | [] => return []
  | b :: rest => do
    let is_headline ← is_likely_headlineE b (headlineWindow sorted_blocks 0)
    groupGoE sorted_blocks rest 1 b (newArticle 1 b is_headline) 2

/-- The partition of a sorted stream induced by the `start_new` break test
alone (gap and column change): the block-level skeleton of the grouping
loop, with no headline bookkeeping. -/
def chunkGo (prev : Block) (cur : List Block) : List Block → List (List Block)
  | [] => [cur]
  | blk :: rest =>
    if start_new blk prev then cur :: chunkGo blk [blk] rest
    else chunkGo blk (cur ++ [blk]) rest

/-- Partition of a whole sorted stream by the `start_new` break test. -/
def pyChunk : List Block → List (List Block)
  | [] => []
  | b :: rest => chunkGo b [b] rest

theorem groupGo_map_blocks (sorted_blocks : List Block) (rest : List Block) :
    ∀ i prev cur aid,
      (groupGo sorted_blocks rest i prev cur aid).map (fun a => a.blocks)
        = chunkGo prev cur.blocks rest := by
  induction rest with
  | nil => intro i prev cur aid; simp [groupGo, chunkGo]
  | cons blk rest ih =>
    intro i prev cur aid
    cases h : start_new blk prev
    · simp [groupGo, chunkGo, h, ih]
    · simp [groupGo, chunkGo, h, ih, newArticle]

theorem grouped_sorted_map_blocks (sorted_blocks : List Block) :
    (grouped_articles_sorted sorted_blocks).map (fun a => a.blocks)
      = pyChunk sorted_blocks := by
  cases sorted_blocks with
  | nil => simp [grouped_articles_sorted, pyChunk]
  | cons b rest =>
    simp [grouped_articles_sorted, pyChunk, groupGo_map_blocks, newArticle]

theorem chunkGo_flatten (rest : List Block) :
    ∀ prev cur, (chunkGo prev cur rest).flatten = cur ++ rest := by
  induction rest with
  | nil => intro prev cur; simp [chunkGo]
  | cons blk rest ih =>
    intro prev cur
    cases h : start_new blk prev
    · simp [chunkGo, h, ih]
    · simp [chunkGo, h, ih]

theorem pyChunk_flatten (sorted_blocks : List Block) :
    (pyChunk sorted_blocks).flatten = sorted_blocks := by
  cases sorted_blocks with
  | nil => simp [pyChunk]
  | cons b rest => simp [pyChunk, chunkGo_flatten]

theorem insertLe_length {α : Type} (le : α → α → Bool) (a : α) (l : List α) :
    (insertLe le a l).length = l.length + 1 := by
  induction l with
  | nil => simp [insertLe]
  | cons b l ih =>
    cases h : le a b
    · simp [insertLe, h, ih]
    · simp [insertLe, h]

theorem pySorted_length {α : Type} (le : α → α → Bool) (l : List α) :
    (pySorted le l).length = l.length := by
  induction l with
  | nil => simp [pySorted]
  | cons a l ih => simp [pySorted, insertLe_length, ih]

theorem start_new_false_column {blk prev : Block}
    (h : start_new blk prev = false) : blk.column = prev.column := by
  simp only [start_new, Bool.or_eq_false_iff, decide_eq_false_iff_not, not_not] at h
  exact h.2

theorem start_new_true_of_gap {blk prev : Block}
    (hh1 : 0 ≤ prev.bbox.height) (hh2 : 0 ≤ blk.bbox.height)
    (hgap : blk.bbox.y - (prev.bbox.y + prev.bbox.height)
      > 5 / 2 * ((blk.bbox.height + prev.bbox.height) / 2)) :
    start_new blk prev = true := by
  have havg : 0 ≤ (blk.bbox.height + prev.bbox.height) / 2 := by
    have := add_nonneg hh2 hh1
    linarith
  simp only [start_new, Bool.or_eq_true, decide_eq_true_eq]
  left
  linarith

theorem chunkGo_columns (rest : List Block) :
    ∀ prev cur, (∀ b ∈ cur, b.column = prev.column) →
      ∀ c ∈ chunkGo prev cur rest, ∀ b1 ∈ c, ∀ b2 ∈ c, b1.column = b2.column := by
  induction rest with
  | nil =>
    intro prev cur hcur c hc b1 h1 b2 h2
    simp only [chunkGo, List.mem_singleton] at hc
    subst hc
    rw [hcur b1 h1, hcur b2 h2]
  | cons blk rest ih =>
    intro prev cur hcur c hc b1 h1 b2 h2
    cases h : start_new blk prev with
    | false =>
      rw [chunkGo, if_neg (by simp [h])] at hc
      have hcol := start_new_false_column h
      refine ih blk (cur ++ [blk]) ?_ c hc b1 h1 b2 h2
      intro b hb
      rcases List.mem_append.mp hb with hb1 | hb2
      · rw [hcur b hb1, hcol]
      · simp only [List.mem_singleton] at hb2; subst hb2; rfl
    | true =>
      rw [chunkGo, if_pos (by simp [h])] at hc
      rcases List.mem_cons.mp hc with hc1 | hc2
      · subst hc1
        rw [hcur b1 h1, hcur b2 h2]
      · refine ih blk [blk] ?_ c hc2 b1 h1 b2 h2
        intro b hb
        simp only [List.mem_singleton] at hb; subst hb; rfl

/-- Last element of a list, with a default for the empty list. -/
def lastD {α : Type} : List α → α → α
  | [], d => d
  | x :: xs, _ => lastD xs x

theorem chunkGo_split (xs : List Block) :
    ∀ p c blk rest, start_new blk (lastD xs p) = true →
      chunkGo p c (xs ++ blk :: rest) = chunkGo p c xs ++ chunkGo blk [blk] rest := by
  induction xs with
  | nil =>
    intro p c blk rest h
    simp only [lastD] at h
    simp [chunkGo, h]
  | cons x xs ih =>
    intro p c blk rest h
    have h2 : start_new blk (lastD xs x) = true := by
      simpa [lastD] using h
    cases hx : start_new x p
    · simp [chunkGo, hx, ih _ _ _ _ h2]
    · simp [chunkGo, hx, ih _ _ _ _ h2]

/-- A short lower-case body fragment (column 0 of a 300-wide page). -/
def r0 : Block :=
  { text := "aaa", bbox := { x := 10, y := 0, width := 10, height := 10 }, column := none }

/-- A headline-looking fragment 2 pixels below `r0` in the same column. -/
def r1 : Block :=
  { text := "MURDER TRIAL", bbox := { x := 10, y := 12, width := 10, height := 10 },
    column := none }

/-- `r0` after column assignment on a width-300 page (3 bands of 100). -/
def r0x : Block := { r0 with column := some 0 }

/-- `r1` after column assignment on a width-300 page. -/
def r1x : Block := { r1 with column := some 0 }

theorem d_title_aaa : (pyIsTitle "aaa" || pyIsUpper "aaa") = false := by decide

theorem d_words_aaa :
    headline_words.any (fun w => listContainsSub (pyLower "aaa").data w.data) = false := by
  decide

theorem d_short_aaa : decide (("aaa" : String).length < 100) = true := by decide

theorem d_title_mt : (pyIsTitle "MURDER TRIAL" || pyIsUpper "MURDER TRIAL") = true := by
  decide

theorem d_words_mt :
    headline_words.any
      (fun w => listContainsSub (pyLower "MURDER TRIAL").data w.data) = true := by
  decide

theorem d_short_mt : decide (("MURDER TRIAL" : String).length < 100) = true := by decide

theorem d_id1 : "article_" ++ toString 1 = "article_1" := by decide

theorem eval_assign : columnsAssigned [r0, r1] 300 = [r0x, r1x] := by
  norm_num [columnsAssigned, detect_columns, assign_to_column, pySorted, insertLe,
    List.findIdx?, r0, r1, r0x, r1x]

theorem eval_sorted : sortedAssigned [r0, r1] 300 = [r0x, r1x] := by
  simp only [sortedAssigned, eval_assign]
  norm_num [pySorted, insertLe, blockLe, r0x, r1x, r0, r1]

theorem eval_h0 : is_likely_headline r0x [r0x, r1x] = false := by
  norm_num [is_likely_headline, r0x, r1x, r0, r1, d_title_aaa, d_words_aaa, d_short_aaa]

theorem eval_h1 : is_likely_headline r1x [r0x, r1x] = true := by
  norm_num [is_likely_headline, r0x, r1x, r0, r1, d_title_mt, d_words_mt, d_short_mt]

/-- The single article the grouper produces from `[r0, r1]` on a width-300
page: both fragments grouped together, the headline backfilled from `r1`. -/
def A1 : Article :=
  { article_id := "article_1", headline := "MURDER TRIAL", blocks := [r0x, r1x],
    column := some 0, start_y := 0, end_y := 22 }

theorem eval_h0_lit :
    is_likely_headline
      { text := "aaa", bbox := { x := 10, y := 0, width := 10, height := 10 },
        column := some 0 }
      [{ text := "aaa", bbox := { x := 10, y := 0, width := 10, height := 10 },
         column := some 0 },
       { text := "MURDER TRIAL", bbox := { x := 10, y := 12, width := 10, height := 10 },
         column := some 0 }] = false := by
  simpa [r0x, r1x, r0, r1] using eval_h0

theorem eval_h1_lit :
    is_likely_headline
      { text := "MURDER TRIAL", bbox := { x := 10, y := 12, width := 10, height := 10 },
        column := some 0 }
      [{ text := "aaa", bbox := { x := 10, y := 0, width := 10, height := 10 },
         column := some 0 },
       { text := "MURDER TRIAL", bbox := { x := 10, y := 12, width := 10, height := 10 },
         column := some 0 }] = true := by
  simpa [r0x, r1x, r0, r1] using eval_h1

theorem eval_pair : grouped_articles [r0, r1] 300 = [A1] := by
  simp only [grouped_articles, eval_sorted]
  norm_num [grouped_articles_sorted, groupGo, start_new, headlineWindow, pySlice,
    newArticle, eval_h0_lit, eval_h1_lit, A1, r0x, r1x, r0, r1, d_id1]

theorem sum_map_length (ls : List (List Block)) :
    (ls.map List.length).sum = ls.flatten.length := by
  rw [List.length_flatten]

theorem grouped_articles_def (l : List Block) (w : ℚ) :
    grouped_articles l w = grouped_articles_sorted (sortedAssigned l w) := rfl

theorem partition_sum (l : List Block) (w h : ℚ) :
    ((group_into_articles l w h).map (fun a => a.num_blocks)).sum = l.length := by
  by_cases hl : l = []
  · subst hl; simp [group_into_articles]
  · rw [group_into_articles]
    simp only [if_neg hl, List.map_map]
    have hcomp : ((fun a : ArticleOut => a.num_blocks) ∘ postProcess)
        = fun a : Article => a.blocks.length := by
      funext a; simp [postProcess]
    rw [hcomp]
    have hlen : (fun a : Article => a.blocks.length)
        = List.length ∘ (fun a : Article => a.blocks) := rfl
    rw [hlen, ← List.map_map, grouped_articles_def, grouped_sorted_map_blocks,
      sum_map_length, pyChunk_flatten]
    simp only [sortedAssigned, pySorted_length, columnsAssigned, List.length_map]

/-- C1 (counterexample): a same-column fragment 2px below its predecessor is
classified as a headline by `is_likely_headline` over the very window the
grouper would use, yet the grouper appends it to the open article instead of
starting a new one: the two fragments end up in one article with the
headline-classified fragment as its second member. -/
theorem c1_counterexample :
    is_likely_headline r1x (headlineWindow (sortedAssigned [r0, r1] 300) 1) = true ∧
    (grouped_articles [r0, r1] 300).map (fun a => a.blocks) = [[r0x, r1x]] ∧
    r1x ≠ r0x := by
  refine ⟨?_, ?_, by decide⟩
  · rw [eval_sorted]
    exact eval_h1
  · rw [eval_pair]
    rfl

/-- C1 (amended): headline classification never influences article
boundaries.  The grouper's partition of the sorted stream into member-block
lists equals the partition induced by the `start_new` break test alone, which
consults only the vertical gap and the column indices; `is_likely_headline`
only selects headline text. -/
theorem c1_amended_boundaries_headline_free (l : List Block) (w : ℚ) :
    (grouped_articles l w).map (fun a => a.blocks) = pyChunk (sortedAssigned l w) :=
  grouped_sorted_map_blocks (sortedAssigned l w)

/-- C2: partition totality of the Article Grouper — the member-fragment
counts (`num_blocks`) of the output articles sum to the length of the input
fragment list, for every input: no fragment is dropped and none is
duplicated. -/
theorem c2_partition_totality (l : List Block) (w h : ℚ) :
    ((group_into_articles l w h).map (fun a => a.num_blocks)).sum = l.length :=
  partition_sum l w h

/-- C3: order preservation — concatenating the output articles' member-block
sequences in output order reproduces exactly the column-assigned input
fragments sorted by `(column, bbox.y)`. -/
theorem c3_order_preservation (l : List Block) (w : ℚ) :
    ((grouped_articles l w).map (fun a => a.blocks)).flatten = sortedAssigned l w := by
  rw [grouped_articles_def, grouped_sorted_map_blocks, pyChunk_flatten]

theorem pyChunk_columns (sorted_blocks : List Block) :
    ∀ c ∈ pyChunk sorted_blocks, ∀ b1 ∈ c, ∀ b2 ∈ c, b1.column = b2.column := by
  cases sorted_blocks with
  | nil => intro c hc; simp [pyChunk] at hc
  | cons b rest =>
    intro c hc
    exact chunkGo_columns rest b [b]
      (by intro x hx; simp only [List.mem_singleton] at hx; subst hx; rfl) c hc

/-- C4: column-break invariant — no article produced by the grouper contains
two member fragments with different assigned column indices. -/
theorem c4_column_invariant (l : List Block) (w : ℚ) (art : Article)
    (hart : art ∈ grouped_articles l w) (b1 : Block) (h1 : b1 ∈ art.blocks)
    (b2 : Block) (h2 : b2 ∈ art.blocks) : b1.column = b2.column := by
  have hmem : art.blocks ∈ (grouped_articles l w).map (fun a => a.blocks) :=
    List.mem_map_of_mem _ hart
  rw [grouped_articles_def, grouped_sorted_map_blocks] at hmem
  exact pyChunk_columns _ _ hmem b1 h1 b2 h2

theorem c4_column_invariant_witness :
    A1 ∈ grouped_articles [r0, r1] 300 ∧ r0x ∈ A1.blocks ∧ r1x ∈ A1.blocks ∧
      r0x.column = r1x.column := by
  have hA : A1 ∈ grouped_articles [r0, r1] 300 := by rw [eval_pair]; simp
  have hb0 : r0x ∈ A1.blocks := by simp [A1]
  have hb1 : r1x ∈ A1.blocks := by simp [A1]
  exact ⟨hA, hb0, hb1, c4_column_invariant [r0, r1] 300 A1 hA r0x hb0 r1x hb1⟩

theorem lastD_concat {α : Type} (xs : List α) :
    ∀ a d : α, lastD (xs ++ [a]) d = a := by
  induction xs with
  | nil => intro a d; rfl
  | cons x xs ih => intro a d; simpa [lastD] using ih a x

/-- C6: whitespace-gap break — when the incoming fragment sits in the same
column as its predecessor and the vertical gap exceeds 2.5 times the average
of their (nonnegative) heights, the grouper closes the article at the
predecessor and opens a new one at the incoming fragment: the partition
splits exactly there.  (The source breaks already at 2 times the average, so
2.5 times forces the break.) -/
theorem c6_gap_break (pre : List Block) (prev blk : Block) (rest : List Block)
    (hcol : blk.column = prev.column)
    (hh1 : 0 ≤ prev.bbox.height) (hh2 : 0 ≤ blk.bbox.height)
    (hgap : blk.bbox.y - (prev.bbox.y + prev.bbox.height)
      > 5 / 2 * ((blk.bbox.height + prev.bbox.height) / 2)) :
    (grouped_articles_sorted (pre ++ prev :: blk :: rest)).map (fun a => a.blocks)
      = pyChunk (pre ++ [prev]) ++ pyChunk (blk :: rest) := by
  have hcol2 := hcol
  have hsn : start_new blk prev = true := start_new_true_of_gap hh1 hh2 hgap
  rw [grouped_sorted_map_blocks]
  cases pre with
  | nil =>
    have hs := chunkGo_split [] prev [prev] blk rest (by simpa [lastD] using hsn)
    simpa [pyChunk] using hs
  | cons p0 pre2 =>
    have hlast : lastD (pre2 ++ [prev]) p0 = prev := lastD_concat pre2 prev p0
    have hs := chunkGo_split (pre2 ++ [prev]) p0 [p0] blk rest (by rw [hlast]; exact hsn)
    rw [List.append_assoc] at hs
    simpa [pyChunk] using hs

/-- A same-column fragment at y = 0, height 10. -/
def g0 : Block :=
  { text := "aaa", bbox := { x := 10, y := 0, width := 10, height := 10 }, column := some 0 }

/-- A same-column fragment at y = 300, height 10 (gap 290 over average 10). -/
def g1 : Block :=
  { text := "bbb", bbox := { x := 10, y := 300, width := 10, height := 10 },
    column := some 0 }

theorem c6_gap_break_witness :
    g1.column = g0.column ∧
    (grouped_articles_sorted [g0, g1]).map (fun a => a.blocks)
      = pyChunk [g0] ++ pyChunk [g1] ∧
    pyChunk [g0] ++ pyChunk [g1] = [[g0], [g1]] := by
  refine ⟨rfl, ?_, rfl⟩
  exact c6_gap_break [] g0 g1 [] rfl (by norm_num [g0]) (by norm_num [g1])
    (by norm_num [g0, g1])

theorem getD_replicate_zero (w : ℕ) : ∀ k, (List.replicate w (0:ℚ)).getD k 0 = 0 := by
  induction w with
  | zero => intro k; simp [List.getD]
  | succ w ih =>
    intro k
    cases k with
    | zero => simp [List.replicate_succ]
    | succ k => simp only [List.replicate_succ, List.getD_cons_succ]; exact ih k

theorem foldl_max_zero : ∀ m : ℕ, (List.replicate m (0:ℚ)).foldl max 0 = 0 := by
  intro m
  induction m with
  | zero => rfl
  | succ m ih => simpa [List.replicate_succ, max_self] using ih

theorem foldl_min_zero : ∀ m : ℕ, (List.replicate m (0:ℚ)).foldl min 0 = 0 := by
  intro m
  induction m with
  | zero => rfl
  | succ m ih => simpa [List.replicate_succ, min_self] using ih

theorem listMaxQ_replicate_zero (m : ℕ) : listMaxQ (List.replicate m 0) = 0 := by
  cases m with
  | zero => rfl
  | succ m =>
    rw [listMaxQ, List.replicate_succ]
    simpa [max_self] using foldl_max_zero m

theorem listMinQ_replicate_zero (m : ℕ) : listMinQ (List.replicate m 0) = 0 := by
  cases m with
  | zero => rfl
  | succ m =>
    rw [listMinQ, List.replicate_succ]
    simpa [min_self] using foldl_min_zero m

theorem convolveFull_zero (w : ℕ) (v : List ℚ) :
    convolveFull (List.replicate w 0) v = List.replicate (w + v.length - 1) 0 := by
  rw [convolveFull, List.length_replicate]
  have hin : ∀ n : ℕ,
      ((List.range (n + 1)).map
        (fun k => (List.replicate w (0:ℚ)).getD k 0 * v.getD (n - k) 0)).sum = 0 := by
    intro n
    apply List.sum_eq_zero
    intro x hx
    rcases List.mem_map.mp hx with ⟨k, _, hk⟩
    rw [← hk, getD_replicate_zero]
    ring
  have hmap : (List.range (w + v.length - 1)).map
      (fun n => ((List.range (n + 1)).map
        (fun k => (List.replicate w (0:ℚ)).getD k 0 * v.getD (n - k) 0)).sum)
      = (List.range (w + v.length - 1)).map (fun _ => (0:ℚ)) :=
    List.map_congr_left (fun n _ => hin n)
  rw [hmap]
  simp

theorem convolveSame_zeros (w ws : ℕ) (c : ℚ) :
    convolveSame (List.replicate w 0) (List.replicate ws c)
      = List.replicate (min w (w + ws - 1 - (ws - 1) / 2)) 0 := by
  rw [convolveSame, convolveFull_zero]
  simp [List.drop_replicate, List.take_replicate, Nat.sub_sub]

theorem smooth_projection_zeros (w ws : ℕ) (hw : w ≠ 0) (hws : ws ≠ 0) :
    smooth_projection (List.replicate w 0) ws
      = Except.ok (List.replicate (min w (w + ws - 1 - (ws - 1) / 2)) 0) := by
  rw [smooth_projection, convolveSameE,
    if_neg (by simp [List.replicate_eq_nil_iff, hw]),
    if_neg (by simp [List.replicate_eq_nil_iff, hws]), convolveSame_zeros]

theorem smooth_projection_empty_kernel (w : ℕ) (hw : w ≠ 0) :
    smooth_projection (List.replicate w (0:ℚ)) 0
      = Except.error "ValueError: v cannot be empty" := by
  rw [smooth_projection, convolveSameE,
    if_neg (by simp [List.replicate_eq_nil_iff, hw])]
  rfl

theorem find_peaks_zeros (m ec : ℕ) (mph : ℚ) :
    find_peaks (List.replicate m 0) ec mph = none := by
  rw [find_peaks]
  simp [listMaxQ_replicate_zero, listMinQ_replicate_zero]

theorem detect_blank (w : ℕ) (hw : 100 ≤ w) :
    detect_column_boundaries (List.replicate w (0:ℚ)) w 5
      = Except.ok (evenBoundaries w 5) := by
  have hw0 : w ≠ 0 := by omega
  have hws : w / 100 ≠ 0 := by
    have h1 : 1 ≤ w / 100 := (Nat.one_le_div_iff (by norm_num)).mpr hw
    omega
  simp only [detect_column_boundaries,
    smooth_projection_zeros w (w / 100) hw0 hws, ebind_ok, find_peaks_zeros, epure_ok]

theorem detect_narrow (w : ℕ) (hw1 : w ≠ 0) (hw2 : w < 100) :
    detect_column_boundaries (List.replicate w (0:ℚ)) w 5
      = Except.error "ValueError: v cannot be empty" := by
  have hws : w / 100 = 0 := Nat.div_eq_of_lt hw2
  simp only [detect_column_boundaries, hws,
    smooth_projection_empty_kernel w hw1]
  rfl

theorem detect_zero_width :
    detect_column_boundaries (List.replicate 0 (0:ℚ)) 0 5
      = Except.error "ValueError: a cannot be empty" := rfl

/-- C5 (counterexample): on the all-zero projection of an entirely blank
(no-ink) 100-pixel-wide page, `detect_column_boundaries` with its default
`expected_columns = 5` returns the even-division fallback
`[0, 20, 40, 60, 80, 100]` (five columns), not the single-column boundary
list `[0, 100]` the claim states. -/
theorem c5_counterexample :
    detect_column_boundaries (List.replicate 100 (0:ℚ)) 100 5
      = Except.ok [0, 20, 40, 60, 80, 100] ∧
    detect_column_boundaries (List.replicate 100 (0:ℚ)) 100 5 ≠ Except.ok [0, 100] := by
  rw [detect_blank 100 (by norm_num)]
  constructor
  · simp only [Except.ok.injEq]
    decide
  · simp only [ne_eq, Except.ok.injEq]
    decide

/-- C5 (amended): on the all-zero projection of an entirely blank (no-ink)
page of width `w`, `detect_column_boundaries` with its default
`expected_columns = 5` behaves as follows.  For `w ≥ 100` the flat profile
makes `find_peaks` return `None` and the function returns — without raising —
the even five-way division `[int(w*i/5) for i in 0..5]`, six boundaries, not
`[0, w]`.  For `1 ≤ w < 100` the smoothing window `int(w/100)` is zero, the
kernel is empty, and `np.convolve` raises `ValueError` ("v cannot be
empty"); for `w = 0` the projection itself is empty and it raises
`ValueError` ("a cannot be empty") — so the claim's "does not raise" also
fails below width 100. -/
theorem c5_amended_blank_fallback (w : ℕ) :
    (100 ≤ w →
      detect_column_boundaries (List.replicate w (0:ℚ)) w 5
          = Except.ok (evenBoundaries w 5) ∧
        (evenBoundaries w 5).length = 6) ∧
    (w ≠ 0 → w < 100 →
      detect_column_boundaries (List.replicate w (0:ℚ)) w 5
        = Except.error "ValueError: v cannot be empty") ∧
    (w = 0 →
      detect_column_boundaries (List.replicate w (0:ℚ)) w 5
        = Except.error "ValueError: a cannot be empty") :=
  ⟨fun hw => ⟨detect_blank w hw, by simp [evenBoundaries]⟩,
   fun hw1 hw2 => detect_narrow w hw1 hw2,
   fun hw => by subst hw; exact detect_zero_width⟩

theorem c5_amended_blank_fallback_witness :
    ((100 ≤ 100 ∧
      (detect_column_boundaries (List.replicate 100 (0:ℚ)) 100 5
          = Except.ok (evenBoundaries 100 5) ∧
        (evenBoundaries 100 5).length = 6)) ∧
     ((99:ℕ) ≠ 0 ∧ 99 < 100 ∧
      detect_column_boundaries (List.replicate 99 (0:ℚ)) 99 5
        = Except.error "ValueError: v cannot be empty")) ∧
    ((0:ℕ) = 0 ∧
      detect_column_boundaries (List.replicate 0 (0:ℚ)) 0 5
        = Except.error "ValueError: a cannot be empty") :=
  ⟨⟨⟨by norm_num, (c5_amended_blank_fallback 100).1 (by norm_num)⟩,
    ⟨by norm_num, by norm_num,
      (c5_amended_blank_fallback 99).2.1 (by norm_num) (by norm_num)⟩⟩,
   ⟨rfl, (c5_amended_blank_fallback 0).2.2 rfl⟩⟩

/-- Modelled from the spec (section 4.3): true when the text ends in a
terminal sentence punctuation mark. -/
def endsInTerminalPunct (s : String) : Bool :=
  match s.data.getLast? with
  | some c => c == '.' || c == '!' || c == '?'
  | none => false

/-- Modelled from the spec (section 4.3): the casing signal as the spec words
it — "text is fully upper-case, or is title-case and does not end in terminal
sentence punctuation" — for comparison with the implementation, which has no
punctuation exclusion. -/
def spec_casing_signal (text : String) : Bool :=
  pyIsUpper text || (pyIsTitle text && !(endsInTerminalPunct text))

/-- Modelled from the spec (section 4.3): the full decision rule as the spec
words it, instantiating the height factor at 1.3 and the brevity cutoff at
100 characters (the implementation's values, inside the spec's quoted
ranges), so that the only difference from `is_likely_headline` is the
casing signal. -/
def spec_is_likely_headline (block : Block) (surrounding_blocks : List Block) : Bool :=
  let text := block.text
  let height := block.bbox.height
  let avg_height : ℚ :=
    if surrounding_blocks ≠ [] then
      ((surrounding_blocks.map (fun b => b.bbox.height)).sum) / (surrounding_blocks.length : ℚ)
    else height
  let tall : Bool := decide (height > avg_height * (13 / 10))
  let brevity : Bool := decide (text.length < 100)
  let casing : Bool := spec_casing_signal text
  let lexical : Bool :=
    headline_words.any (fun w => listContainsSub (pyLower text).data w.data)
  let score : ℕ :=
    (if tall then 1 else 0) + (if brevity then 1 else 0) +
      (if casing then 1 else 0) + (if lexical then 1 else 0)
  decide (score ≥ 2)

/-- The local average fragment height used by the height signal
(source lines 72-75). -/
def local_avg_height (block : Block) (surrounding_blocks : List Block) : ℚ :=
  if surrounding_blocks ≠ [] then
    ((surrounding_blocks.map (fun b => b.bbox.height)).sum) / (surrounding_blocks.length : ℚ)
  else block.bbox.height

/-- Height signal of the implementation: taller than 1.3 times the local
average (source line 78). -/
def height_signal (block : Block) (surrounding_blocks : List Block) : Bool :=
  decide (block.bbox.height > local_avg_height block surrounding_blocks * (13 / 10))

/-- Brevity signal of the implementation: text under 100 characters
(source line 81). -/
def brevity_signal (block : Block) : Bool :=
  decide (block.text.length < 100)

/-- Casing signal of the implementation: title-case or upper-case, with no
punctuation exclusion (source line 84). -/
def casing_signal (block : Block) : Bool :=
  pyIsTitle block.text || pyIsUpper block.text

/-- Lexical signal of the implementation: a domain keyword occurs in the
lower-cased text (source line 87). -/
def lexical_signal (block : Block) : Bool :=
  headline_words.any (fun w => listContainsSub (pyLower block.text).data w.data)

theorem score_countP (a b c d : Bool) :
    decide ((if a then (1:ℕ) else 0) + (if b then 1 else 0) + (if c then 1 else 0)
      + (if d then 1 else 0) ≥ 2) = true ↔ 2 ≤ List.countP id [a, b, c, d] := by
  cases a <;> cases b <;> cases c <;> cases d <;> decide

/-- A title-case fragment ending in a full stop, of average height. -/
def t7 : Block :=
  { text := "The Cat Sat.", bbox := { x := 0, y := 0, width := 10, height := 10 },
    column := none }

theorem d_title_tcs :
    (pyIsTitle "The Cat Sat." || pyIsUpper "The Cat Sat.") = true := by decide

theorem d_words_tcs :
    headline_words.any
      (fun w => listContainsSub (pyLower "The Cat Sat.").data w.data) = false := by
  decide

theorem d_short_tcs : decide (("The Cat Sat." : String).length < 100) = true := by decide

theorem d_casing_tcs : spec_casing_signal "The Cat Sat." = false := by decide

/-- C7 (counterexample): on a title-case fragment ending in a full stop with
average height and no keywords, the implementation's classifier answers true
(brevity + casing reach the threshold) while the spec's rule — whose casing
signal excludes title-case text ending in terminal punctuation — scores only
1 and answers false.  The claim's "exactly when" equivalence therefore fails
on the code. -/
theorem c7_counterexample :
    is_likely_headline t7 [t7] = true ∧ spec_is_likely_headline t7 [t7] = false := by
  constructor
  · norm_num [is_likely_headline, t7, d_title_tcs, d_words_tcs, d_short_tcs]
  · norm_num [spec_is_likely_headline, t7, d_casing_tcs, d_words_tcs, d_short_tcs]

/-- C7 (amended): `is_likely_headline` returns true exactly when at least 2
of its 4 additive signals hold, where the signals are: height exceeding 1.3
times the local average fragment height; text length under 100 characters;
casing (fully upper-case or title-case, with no exclusion for terminal
punctuation); and presence of domain keyword vocabulary. -/
theorem c7_amended_decision_rule (block : Block) (surrounding_blocks : List Block) :
    is_likely_headline block surrounding_blocks = true ↔
      2 ≤ List.countP id
        [height_signal block surrounding_blocks, brevity_signal block,
         casing_signal block, lexical_signal block] := by
  simp only [is_likely_headline, height_signal, brevity_signal, casing_signal,
    lexical_signal, local_avg_height]
  exact score_countP _ _ _ _

theorem qdiv_ok (a : ℚ) {b : ℚ} (hb : b ≠ 0) : qdiv a b = Except.ok (a / b) := by
  simp [qdiv, hb]

theorem detect_columnsE_ok (l : List Block) (w : ℚ) :
    detect_columnsE l w 3 = Except.ok (detect_columns l w 3) := by
  by_cases hl : l = []
  · subst hl; rfl
  · simp only [detect_columnsE, detect_columns, if_neg hl]
    rw [qdiv_ok w (by norm_num : ((3:ℕ) : ℚ) ≠ 0)]
    rfl

theorem assign_to_columnE_ok (b : Block) (cols : List (ℚ × ℚ)) :
    assign_to_columnE b cols = Except.ok (assign_to_column b cols) := by
  simp only [assign_to_columnE, assign_to_column]
  rw [qdiv_ok b.bbox.width (by norm_num : (2 : ℚ) ≠ 0)]
  rw [ebind_ok]
  cases hf : List.findIdx?
      (fun c => decide (c.1 ≤ b.bbox.x + b.bbox.width / 2)
        && decide (b.bbox.x + b.bbox.width / 2 < c.2)) cols <;>
    simp [hf, epure_ok]

theorem is_likely_headlineE_ok (b : Block) (s : List Block) :
    is_likely_headlineE b s = Except.ok (is_likely_headline b s) := by
  by_cases hs : s = []
  · subst hs; rfl
  · have hlen : ((s.length : ℚ)) ≠ 0 := by
      have h0 : s.length ≠ 0 := by simpa [List.length_eq_zero] using hs
      exact_mod_cast h0
    simp only [is_likely_headlineE, is_likely_headline, hs, qdiv_ok _ hlen,
      ebind_ok, epure_ok]
    rw [if_pos hs, if_pos hs]

theorem start_newE_ok (b p : Block) :
    start_newE b p = Except.ok (start_new b p) := by
  simp only [start_newE, start_new]
  rw [qdiv_ok _ (by norm_num : (2 : ℚ) ≠ 0), ebind_ok, epure_ok]

theorem groupGoE_ok (sorted_blocks : List Block) (rest : List Block) :
    ∀ i prev cur aid,
      groupGoE sorted_blocks rest i prev cur aid
        = Except.ok (groupGo sorted_blocks rest i prev cur aid) := by
  induction rest with
  | nil => intro i prev cur aid; rfl
  | cons blk rest ih =>
    intro i prev cur aid
    simp only [groupGoE, groupGo, start_newE_ok, ebind_ok]
    cases hsn : start_new blk prev <;>
      simp [hsn, is_likely_headlineE_ok, ebind_ok, ih]

theorem assignAllE_ok (cols : List (ℚ × ℚ)) (l : List Block) :
    assignAllE cols l
      = Except.ok (l.map (fun b => { b with column := some (assign_to_column b cols) })) := by
  induction l with
  | nil => rfl
  | cons b l ih => simp [assignAllE, assign_to_columnE_ok, ebind_ok, ih, epure_ok]

theorem grouped_articlesE_ok (l : List Block) (w : ℚ) :
    grouped_articlesE l w = Except.ok (grouped_articles l w) := by
  simp only [grouped_articlesE, detect_columnsE_ok, ebind_ok, assignAllE_ok]
  rw [grouped_articles_def]
  simp only [sortedAssigned, columnsAssigned]
  cases hs : pySorted blockLe
      (l.map (fun b => { b with column := some (assign_to_column b (detect_columns l w 3)) }))
  · rfl
  · simp [grouped_articles_sorted, is_likely_headlineE_ok, ebind_ok, groupGoE_ok]

/-- C8: zero-height safety — for any input containing a zero-height fragment
(the hypothesis; all-zero inputs included), the grouper still places every
fragment in exactly one article (the partition count equation holds), and the
division-checked instrumentation of the whole grouping pipeline — in which
every division of `detect_columns`, `assign_to_column`, the gap/average
computation and `is_likely_headline` raises on a zero denominator — returns
`ok` with the same articles: no computation divides by zero. -/
theorem c8_zero_height_safety (l : List Block) (w h : ℚ)
    (hz : ∃ b ∈ l, b.bbox.height = 0) :
    ((group_into_articles l w h).map (fun a => a.num_blocks)).sum = l.length ∧
    grouped_articlesE l w = Except.ok (grouped_articles l w) :=
  ⟨partition_sum l w h, grouped_articlesE_ok l w⟩

/-- A fragment whose bounding box has height 0. -/
def z8 : Block :=
  { text := "zz", bbox := { x := 10, y := 5, width := 10, height := 0 }, column := none }

theorem c8_zero_height_safety_witness :
    (∃ b ∈ [z8], b.bbox.height = 0) ∧
    (((group_into_articles [z8] 300 400).map (fun a => a.num_blocks)).sum = [z8].length ∧
     grouped_articlesE [z8] 300 = Except.ok (grouped_articles [z8] 300)) := by
  have hz : ∃ b ∈ [z8], b.bbox.height = 0 := ⟨z8, by simp, rfl⟩
  exact ⟨hz, c8_zero_height_safety [z8] 300 400 hz⟩

/-- A fragment arriving with a pre-existing column attribute of 7. -/
def p9 : Block :=
  { text := "body", bbox := { x := 10, y := 0, width := 10, height := 10 },
    column := some 7 }

/-- `p9` after the grouper's column-assignment loop overwrites its column. -/
def p9x : Block := { p9 with column := some 0 }

theorem eval_c9 : columnsAssigned [p9] 300 = [p9x] := by
  norm_num [columnsAssigned, detect_columns, assign_to_column, pySorted, insertLe,
    List.findIdx?, p9, p9x]

/-- C9 (counterexample): `group_into_articles` is not pure in its input — its
column-assignment loop (source lines 107-108) overwrites each input block's
`column` key in place.  A block arriving with pre-existing column 7 on a
width-300 page leaves the call with column 0: the post-call state of the
input list (`columnsAssigned`) differs from the input. -/
theorem c9_counterexample :
    p9.column = some 7 ∧
    columnsAssigned [p9] 300 ≠ [p9] ∧
    ((columnsAssigned [p9] 300).headD dummyBlock).column = some 0 := by
  refine ⟨rfl, ?_, ?_⟩
  · rw [eval_c9]; decide
  · rw [eval_c9]; rfl

/-- C9 (amended): the only mutation `group_into_articles` performs on its
input is the column overwrite — after the call every input block keeps its
original text and bbox, and its column attribute equals `assign_to_column`
of the block against the detected column bands. -/
theorem c9_amended_frame (l : List Block) (w : ℚ) (i : ℕ) (hi : i < l.length) :
    ((columnsAssigned l w).getD i dummyBlock).text = (l.getD i dummyBlock).text ∧
    ((columnsAssigned l w).getD i dummyBlock).bbox = (l.getD i dummyBlock).bbox ∧
    ((columnsAssigned l w).getD i dummyBlock).column
      = some (assign_to_column (l.getD i dummyBlock) (detect_columns l w 3)) := by
  have hmap : (columnsAssigned l w).getD i dummyBlock
      = { l.getD i dummyBlock with
          column := some (assign_to_column (l.getD i dummyBlock) (detect_columns l w 3)) } := by
    simp only [columnsAssigned]
    rw [List.getD_eq_getElem _ _ (by simpa using hi), List.getElem_map,
      List.getD_eq_getElem _ _ hi]
  rw [hmap]
  exact ⟨rfl, rfl, rfl⟩

theorem c9_amended_frame_witness :
    0 < ([p9] : List Block).length ∧
    (((columnsAssigned [p9] 300).getD 0 dummyBlock).text = ([p9].getD 0 dummyBlock).text ∧
     ((columnsAssigned [p9] 300).getD 0 dummyBlock).bbox = ([p9].getD 0 dummyBlock).bbox ∧
     ((columnsAssigned [p9] 300).getD 0 dummyBlock).column
       = some (assign_to_column ([p9].getD 0 dummyBlock) (detect_columns [p9] 300 3))) :=
  ⟨by decide, c9_amended_frame [p9] 300 0 (by decide)⟩

/-- C10: the grouper's internal `detect_columns` ignores fragment geometry —
for every nonempty block list and any width and column hint `n`, it returns
exactly the `n` equal-width bands `(i*w/n, (i+1)*w/n)`, independent of the
blocks and of any column attribute they carry.  (`group_into_articles`
invokes it with the source's default hint of 3.) -/
theorem c10_detect_columns_uniform (l : List Block) (w : ℚ) (n : ℕ) (hl : l ≠ []) :
    detect_columns l w n
      = (List.range n).map
          (fun i => ((i : ℚ) * w / (n : ℚ), ((i : ℚ) + 1) * w / (n : ℚ))) := by
  simp only [detect_columns, if_neg hl]
  refine List.map_congr_left (fun i _ => ?_)
  rw [Prod.mk.injEq]
  constructor <;> ring

theorem c10_detect_columns_uniform_witness :
    ([p9] : List Block) ≠ [] ∧
    detect_columns [p9] 300 3
      = (List.range 3).map
          (fun i => ((i : ℚ) * 300 / ((3:ℕ) : ℚ), ((i : ℚ) + 1) * 300 / ((3:ℕ) : ℚ))) :=
  ⟨by simp, c10_detect_columns_uniform [p9] 300 3 (by simp)⟩
